import Mathlib

/-!
Verification of the CryptOpt stochastic-search core against its
natural-language specification.

The TypeScript source is shallowly embedded: JavaScript numbers are
modelled as real numbers (`ℝ`) where the code computes with
transcendental functions (`Math.exp`, `Math.log`, `Math.tan`), and as
rationals (`ℚ`) or integers (`ℤ`) where the code only compares and does
field arithmetic, so that those definitions stay executable.  The
result of `Math.random()` is passed in explicitly as an argument `r`
with `0 ≤ r < 1`, which turns probabilistic statements ("accepted with
probability p") into statements about the acceptance event
`{r | accepted r} = {r | r ≤ p}`.
-/

namespace CryptOpt

/-- `const clamp = (n, lo, hi) => Math.min(hi, Math.max(lo, n))`
(SA optimizer module, bottom of the file). -/
def clamp {α : Type} [LinearOrder α] (n lo hi : α) : α :=
  min hi (max lo n)

/-- Result of one call to `SAOptimizer.shouldAccept`: the function returns
`true` or `false`, or the process is terminated by
`errorOut({exitCode: 123, msg: "negative delta"})`. -/
inductive SADecision : Type
  | accept : SADecision
  | reject : SADecision
  | error : SADecision
  deriving DecidableEq

/-- `SAOptimizer.shouldAccept(currentEnergy, visitEnergy, temp)` of the final
SA optimizer variant:

```ts
if (visitEnergy < currentEnergy) return true;
if (this.acceptParam <= 0) return false;
const r = Math.random();
const delta = this.acceptParam * (visitEnergy - currentEnergy);
if (!(delta >= 0)) errorOut({ exitCode: 123, msg: "negative delta" });
const x = (-1 * delta) / temp;
const pr = Math.min(1, Math.exp(x));
return pr >= r;
```

`acceptParam` is the field `this.acceptParam`, and `r` the value drawn
from `Math.random()`. -/
noncomputable def shouldAccept (acceptParam currentEnergy visitEnergy temp r : ℝ) :
    SADecision :=
  if visitEnergy < currentEnergy then SADecision.accept
  else if acceptParam ≤ 0 then SADecision.reject
  else if ¬ acceptParam * (visitEnergy - currentEnergy) ≥ 0 then SADecision.error
  else if min 1 (Real.exp ((-1 * (acceptParam * (visitEnergy - currentEnergy))) / temp)) ≥ r
    then SADecision.accept
  else SADecision.reject

/-- Modelled from the spec's words (claim C1): the candidate "is accepted
whenever `ej < e0`, and otherwise it is accepted exactly with probability
`min(1, exp(-acceptParam * (ej - e0) / t))`".  With `r` the uniform draw in
`[0,1)`, the acceptance event of that process is `ej < e0` or
`r ≤ min(1, exp(-acceptParam * (ej - e0) / t))`. -/
def specAcceptEvent (acceptParam e0 ej t r : ℝ) : Prop :=
  ej < e0 ∨ r ≤ min 1 (Real.exp (-(acceptParam * (ej - e0)) / t))

/-- C1 counterexample.  The claim is false as stated for runs with
`acceptParam ≤ 0`: at `acceptParam = -1`, `e0 = 0`, `ej = 1`, `t = 1`,
the claimed acceptance probability is `min(1, exp(1)) = 1`, so the draw
`r = 0` lies in the claimed acceptance event, yet `shouldAccept`
returns `false` (the `acceptParam <= 0` guard fires before the
probabilistic test). -/
theorem shouldAccept_claim_false_for_nonpositive_param :
    specAcceptEvent (-1) 0 1 1 0 ∧ shouldAccept (-1) 0 1 1 0 ≠ SADecision.accept := by
  constructor
  · exact Or.inr (le_min (by norm_num) (Real.exp_pos _).le)
  · unfold shouldAccept
    rw [if_neg (by norm_num), if_pos (by norm_num)]
    decide

/-- C1, amended: for every epoch with `acceptParam > 0`, current energy `e0`,
chosen-neighbour energy `ej`, temperature `t` and uniform draw `r`, the
candidate is accepted iff `ej < e0` or `r ≤ min(1, exp(-acceptParam *
(ej - e0) / t))`; i.e. a candidate with `ej ≥ e0` is accepted exactly with
probability `min(1, exp(-acceptParam * (ej - e0) / t))`.  (When
`acceptParam ≤ 0` the code instead rejects every uphill candidate.) -/
theorem shouldAccept_accepts_iff (a e0 ej t r : ℝ) (ha : 0 < a) :
    shouldAccept a e0 ej t r = SADecision.accept ↔ specAcceptEvent a e0 ej t r := by
  unfold shouldAccept specAcceptEvent
  by_cases hlt : ej < e0
  · rw [if_pos hlt]
    simp [hlt]
  · rw [if_neg hlt, if_neg (not_le.mpr ha)]
    have hd : a * (ej - e0) ≥ 0 := mul_nonneg ha.le (sub_nonneg.mpr (not_lt.mp hlt))
    rw [if_neg (not_not_intro hd)]
    have harg : (-1 * (a * (ej - e0))) / t = -(a * (ej - e0)) / t := by ring_nf
    rw [harg]
    constructor
    · intro h
      by_cases hr : min 1 (Real.exp (-(a * (ej - e0)) / t)) ≥ r
      · exact Or.inr hr
      · rw [if_neg hr] at h
        exact absurd h (by decide)
    · intro h
      rcases h with h | h
      · exact absurd h hlt
      · rw [if_pos h]

/-- C1 witness: the amended equivalence instantiated at `acceptParam = 1`,
`e0 = 0`, `ej = 1`, `t = 1`, `r = 0`. -/
theorem shouldAccept_accepts_iff_witness :
    (0 : ℝ) < 1 ∧
      (shouldAccept 1 0 1 1 0 = SADecision.accept ↔ specAcceptEvent 1 0 1 1 0) :=
  ⟨by norm_num, shouldAccept_accepts_iff 1 0 1 1 0 (by norm_num)⟩

/-- C4: for every SA run with `acceptParam ≤ 0`, `shouldAccept` never accepts
an uphill move: whenever the chosen neighbour's energy `ej` is greater than or
equal to the current energy `e0`, the candidate is rejected, at every
temperature `t` and for every random draw `r`. -/
theorem shouldAccept_nonpositive_never_uphill (a e0 ej t r : ℝ)
    (ha : a ≤ 0) (he : e0 ≤ ej) :
    shouldAccept a e0 ej t r = SADecision.reject := by
  unfold shouldAccept
  rw [if_neg (not_lt.mpr he), if_pos ha]

/-- C4 witness: `acceptParam = -2 ≤ 0`, energies `e0 = 1 ≤ ej = 2`,
temperature `5`, draw `1/2`: the candidate is rejected. -/
theorem shouldAccept_nonpositive_never_uphill_witness :
    (-2 : ℝ) ≤ 0 ∧ (1 : ℝ) ≤ 2 ∧
      shouldAccept (-2) 1 2 5 (1 / 2) = SADecision.reject :=
  ⟨by norm_num, by norm_num,
    shouldAccept_nonpositive_never_uphill (-2) 1 2 5 (1 / 2) (by norm_num) (by norm_num)⟩

/-- `SAOptimizer.updateBatchSize(meanRaw)` (identical statements appear in the
RLS optimizer's loop):

```ts
this.msOpts.batchSize = Math.ceil((Number(this.args.cyclegoal) / meanRaw) * this.msOpts.batchSize);
this.msOpts.batchSize = Math.min(this.msOpts.batchSize, 10000);
this.msOpts.batchSize = Math.max(this.msOpts.batchSize, 5);
```

`meanRaw` is the check column's median (`meanrawCheck`). -/
def updateBatchSize (cyclegoal meanRaw batchSize : ℚ) : ℤ :=
  let s1 : ℤ := ⌈cyclegoal / meanRaw * batchSize⌉
  let s2 : ℤ := min s1 10000
  max s2 5

/-- C3: after every batch-size update the new batch size equals
`clamp(ceil(cyclegoal * batchSize / medianCheck), 5, 10000)`, is always in
`[5, 10000]`, and (for a nonnegative previous batch size) is monotone
non-decreasing in the ratio `cyclegoal / medianCheck`. -/
theorem updateBatchSize_spec (g m b g1 m1 g2 m2 : ℚ) (hb : 0 ≤ b)
    (h12 : g1 / m1 ≤ g2 / m2) :
    updateBatchSize g m b = clamp ⌈g * b / m⌉ 5 10000 ∧
    5 ≤ updateBatchSize g m b ∧
    updateBatchSize g m b ≤ 10000 ∧
    updateBatchSize g1 m1 b ≤ updateBatchSize g2 m2 b := by
  refine ⟨?_, ?_, ?_, ?_⟩
  · unfold updateBatchSize clamp
    rw [div_mul_eq_mul_div]
    dsimp only
    omega
  · exact le_max_right _ _
  · exact max_le (le_trans (min_le_right _ _) (by norm_num)) (by norm_num)
  · unfold updateBatchSize
    have hc : (⌈g1 / m1 * b⌉ : ℤ) ≤ ⌈g2 / m2 * b⌉ :=
      Int.ceil_le_ceil (mul_le_mul_of_nonneg_right h12 hb)
    exact max_le_max (min_le_min hc le_rfl) le_rfl

/-- C3 witness: `cyclegoal = 10000`, `medianCheck = 50` vs `40`,
`batchSize = 200`. -/
theorem updateBatchSize_spec_witness :
    0 ≤ (200 : ℚ) ∧ (10000 : ℚ) / 50 ≤ 10000 / 40 ∧
      (updateBatchSize 10000 50 200 = clamp ⌈(10000 : ℚ) * 200 / 50⌉ 5 10000 ∧
        5 ≤ updateBatchSize 10000 50 200 ∧
        updateBatchSize 10000 50 200 ≤ 10000 ∧
        updateBatchSize 10000 50 200 ≤ updateBatchSize 10000 40 200) :=
  ⟨by norm_num, by norm_num,
    updateBatchSize_spec 10000 50 200 10000 50 10000 40 (by norm_num) (by norm_num)⟩

/-- The step-count computation inside `sampleNeighbor` of the final SA
optimizer variant:

```ts
const numMuts = (() => {
  const scaledTemp = temp / this.stepSizeParam;
  const n = Math.round(cauchy({ loc: 1, scale: scaledTemp }));
  if (this.maxMutationStepSize <= 0) return Math.max(n, 1);
  return clamp(n, 1, this.maxMutationStepSize);
})();
```

`n` is the rounded Cauchy draw (`Math.round` rounds half away from zero
towards `+∞`, as does Mathlib's `round`). -/
def sampleNeighborNumMuts (maxMutationStepSize n : ℤ) : ℤ :=
  if maxMutationStepSize ≤ 0 then max n 1 else clamp n 1 maxMutationStepSize

/-- C5: for every SA neighbour, the number of mutations applied is the rounded
Cauchy draw clamped to `[1, maxMutStepSize]` when `maxMutStepSize > 0` and to
`[1, ∞)` when `maxMutStepSize ≤ 0`; in particular at least one mutation is
always applied, for every real value `c` the Cauchy sampler may return
(including negative values). -/
theorem sampleNeighborNumMuts_spec (maxMut : ℤ) (c : ℝ) :
    1 ≤ sampleNeighborNumMuts maxMut (round c) ∧
    (0 < maxMut → sampleNeighborNumMuts maxMut (round c) ≤ maxMut) ∧
    (maxMut ≤ 0 → sampleNeighborNumMuts maxMut (round c) = max (round c) 1) ∧
    (0 < maxMut → sampleNeighborNumMuts maxMut (round c) = clamp (round c) 1 maxMut) := by
  unfold sampleNeighborNumMuts clamp
  by_cases h : maxMut ≤ 0
  · rw [if_pos h]
    exact ⟨le_max_right _ _, fun h0 => absurd h (not_le.mpr h0), fun _ => rfl,
      fun h0 => absurd h (not_le.mpr h0)⟩
  · rw [if_neg h]
    have h1 : (1 : ℤ) ≤ maxMut := by omega
    exact ⟨le_min h1 (le_max_left _ _), fun _ => min_le_left _ _,
      fun h0 => absurd h0 h, fun _ => rfl⟩

/-- C5 witness: `maxMutStepSize = 5` and a negative Cauchy draw `-37/10`:
the step count stays in `[1, 5]`. -/
theorem sampleNeighborNumMuts_spec_witness :
    1 ≤ sampleNeighborNumMuts 5 (round (-37 / 10 : ℝ)) ∧
      sampleNeighborNumMuts 5 (round (-37 / 10 : ℝ)) ≤ 5 :=
  ⟨(sampleNeighborNumMuts_spec 5 (-37 / 10)).1,
    (sampleNeighborNumMuts_spec 5 (-37 / 10)).2.1 (by norm_num)⟩

/-- The two double-buffered RLS candidate slots (`FUNCTIONS` enum). -/
inductive FUNCTIONS : Type
  | F_A : FUNCTIONS
  | F_B : FUNCTIONS
  deriving DecidableEq

/-- Modelled from the spec: `toggleFUNCTIONS` is imported from `@/helper`,
whose source file is not part of this snapshot.  Per the spec ("On accept,
swap which slot is current") and its uses ("flip, because we want the last
accepted, not the last mutated") it swaps the two slots `F_A ↔ F_B`. -/
def toggleFUNCTIONS : FUNCTIONS → FUNCTIONS
  | FUNCTIONS.F_A => FUNCTIONS.F_B
  | FUNCTIONS.F_B => FUNCTIONS.F_A

/-- The measured median of a given slot, out of
`const [meanrawA, meanrawB, meanrawCheck] = analyseResult.rawMedian`. -/
def slotMedian (slot : FUNCTIONS) (meanrawA meanrawB : ℚ) : ℚ :=
  match slot with
  | FUNCTIONS.F_A => meanrawA
  | FUNCTIONS.F_B => meanrawB

/-- Outcome of one RLS accept/revert decision: whether the mutation was kept,
which slot is mutated next (`currentNameOfTheFunctionThatHasTheMutation`
after the iteration), and whether `this.revertFunction()` was invoked (after
the preceding `mutate()` this calls `Model.revertLastMutation()`). -/
structure RLSStepResult : Type where
  kept : Bool
  nextMutated : FUNCTIONS
  revertsModel : Bool

/-- The accept/revert decision of `RLSOptimizer.optimise` for iterations after
the first:

```ts
if (
  (meanrawA <= meanrawB && currentFunctionIsA()) ||
  (meanrawA >= meanrawB && !currentFunctionIsA())
) {
  kept = true;
  currentNameOfTheFunctionThatHasTheMutation = toggleFUNCTIONS(currentNameOfTheFunctionThatHasTheMutation);
} else {
  kept = false;
  this.revertFunction();
}
```

`cur` is `currentNameOfTheFunctionThatHasTheMutation`, the slot holding the
freshly mutated candidate. -/
def rlsAcceptStep (cur : FUNCTIONS) (meanrawA meanrawB : ℚ) : RLSStepResult :=
  if (meanrawA ≤ meanrawB ∧ cur = FUNCTIONS.F_A) ∨
      (meanrawA ≥ meanrawB ∧ ¬ cur = FUNCTIONS.F_A) then
    { kept := true, nextMutated := toggleFUNCTIONS cur, revertsModel := false }
  else
    { kept := false, nextMutated := cur, revertsModel := true }

/-- C2: in every RLS iteration after the first, the newly-mutated slot is
accepted iff its median is less than or equal to the other slot's median
(ties accepted); on acceptance the mutated-slot pointer swaps to the other
slot, and on rejection `this.revertFunction()` (hence
`Model.revertLastMutation`) is invoked. -/
theorem rlsAcceptStep_spec (cur : FUNCTIONS) (mA mB : ℚ) :
    ((rlsAcceptStep cur mA mB).kept = true ↔
      slotMedian cur mA mB ≤ slotMedian (toggleFUNCTIONS cur) mA mB) ∧
    (rlsAcceptStep cur mA mB).nextMutated =
      (if (rlsAcceptStep cur mA mB).kept then toggleFUNCTIONS cur else cur) ∧
    (rlsAcceptStep cur mA mB).revertsModel = ! (rlsAcceptStep cur mA mB).kept := by
  cases cur <;>
    · unfold rlsAcceptStep
      split_ifs with h <;>
        simp_all [slotMedian, toggleFUNCTIONS, ge_iff_le]

/-- `this.neighborSelectionFunc = (candidates: number[]) => candidates[0];`,
installed by the final SA variant's constructor when `numNeighbors === 1`
("using no-op neighbor strategy as numNeighbors=1").  Its argument is the
list of neighbour energies; `candidates[0]` on an empty list is JS
`undefined`, modelled by the default value `0`. -/
def noopNeighborSelection (candidates : List ℚ) : ℚ :=
  candidates.getD 0 0

/-- `private energy(x: number): number { return x; }` of the final SA
variant. -/
def energy (x : ℚ) : ℚ := x

/-- `const neighborIdx = this.neighborSelectionFunc(meanrawNeighbors.map((x) => this.energy(x))) + 1;`
with the `numNeighbors === 1` no-op selection function installed. -/
def saNeighborIdx (meanrawNeighbors : List ℚ) : ℚ :=
  noopNeighborSelection (meanrawNeighbors.map energy) + 1

/-- C7: evaluation at the failing input.  With `saNumNeighbors = 1` and a
single measured neighbour median of `100`, the "neighbour index" the code
computes is `100 + 1 = 101`, not slot `1`: the installed selection function
returns the neighbour's energy value `candidates[0]` where the
`NeighborSelectionFunc` contract (and the spec) require the chosen index. -/
theorem saNeighborIdx_at_failing_input :
    saNeighborIdx [100] = 101 ∧ saNeighborIdx [100] ≠ 1 := by
  constructor <;> norm_num [saNeighborIdx, noopNeighborSelection, energy, List.getD]

/-- Helper for `stringIncludes`: whether the first list occurs at the very
start of the second. -/
def charsStartWith : List Char → List Char → Bool
  | [], _ => true
  | _ :: _, [] => false
  | a :: as, b :: bs => a == b && charsStartWith as bs

/-- Helper for `stringIncludes`: whether `needle` occurs somewhere in the
second list. -/
def charsContain (needle : List Char) : List Char → Bool
  | [] => charsStartWith needle []
  | c :: tail => charsStartWith needle (c :: tail) || charsContain needle tail

/-- JS `hay.includes(needle)`: substring containment. -/
def stringIncludes (hay needle : String) : Bool :=
  charsContain needle.data hay.data

/-- The exit taken through `errorOut(ERRORS.…)` by
`Optimizer.handleMeasurementError`. -/
inductive ExitKind : Type
  | measureIncorrect : ExitKind
  | measureInvalid : ExitKind
  | measureGeneric : ExitKind
  deriving DecidableEq

/-- What is written into each persisted file: `asmA`/`asmB` are
`this.asmStrings[FUNCTIONS.F_A]`/`[FUNCTIONS.F_B]`, and `modelNodesJson` is
`JSON.stringify({ nodes: Model.nodesInTopologicalOrder })`. -/
inductive FileContent : Type
  | asmA : FileContent
  | asmB : FileContent
  | modelNodesJson : FileContent
  deriving DecidableEq

/-- `Optimizer.handleMeasurementError(e)`: the files persisted into the result
directory (in write order) and the exit code, as a function of the error
message.  `errorOut` never returns, so writes after the first `errorOut` are
unreachable:

```ts
const isIncorrect = e instanceof Error && e.message.includes("tested_incorrect");
const isInvalid = e instanceof Error && e.message.includes("could not be assembled");
if (isInvalid || isIncorrect) {
  writeString(join(resultDir, "tested_incorrect_A.asm"), asmStrings[F_A]);
  writeString(join(resultDir, "tested_incorrect_B.asm"), asmStrings[F_B]);
  writeString(join(resultDir, "tested_incorrect.json"), JSON.stringify({ nodes: Model.nodesInTopologicalOrder }));
}
if (isIncorrect) errorOut(ERRORS.measureIncorrect);
if (isInvalid) errorOut(ERRORS.measureInvalid);
writeString(join(resultDir, "generic_error_A.asm"), asmStrings[F_A]);
writeString(join(resultDir, "generic_error_B.asm"), asmStrings[F_B]);
errorOut(ERRORS.measureGeneric);
``` -/
def handleMeasurementError (msg : String) : List (String × FileContent) × ExitKind :=
  let isIncorrect := stringIncludes msg "tested_incorrect"
  let isInvalid := stringIncludes msg "could not be assembled"
  let persisted :=
    if isInvalid || isIncorrect then
      [ ("tested_incorrect_A.asm", FileContent.asmA),
        ("tested_incorrect_B.asm", FileContent.asmB),
        ("tested_incorrect.json", FileContent.modelNodesJson)]
    else []
  if isIncorrect then (persisted, ExitKind.measureIncorrect)
  else if isInvalid then (persisted, ExitKind.measureInvalid)
  else
    (persisted ++
      [ ("generic_error_A.asm", FileContent.asmA),
        ("generic_error_B.asm", FileContent.asmB)],
      ExitKind.measureGeneric)

/-- C9: a `tested_incorrect` measurement error persists
`tested_incorrect_A.asm`, `tested_incorrect_B.asm` and
`tested_incorrect.json` (the dump of `Model.nodesInTopologicalOrder`) and
exits with `measureIncorrect`; a could-not-be-assembled error persists the
same three files and exits with `measureInvalid`; any other measurement
failure persists `generic_error_A.asm` and `generic_error_B.asm` and exits
with `measureGeneric`. -/
theorem handleMeasurementError_spec (msg : String) :
    (stringIncludes msg "tested_incorrect" = true →
      handleMeasurementError msg =
        ([ ("tested_incorrect_A.asm", FileContent.asmA),
           ("tested_incorrect_B.asm", FileContent.asmB),
           ("tested_incorrect.json", FileContent.modelNodesJson)],
          ExitKind.measureIncorrect)) ∧
    (stringIncludes msg "could not be assembled" = true →
      stringIncludes msg "tested_incorrect" = false →
      handleMeasurementError msg =
        ([ ("tested_incorrect_A.asm", FileContent.asmA),
           ("tested_incorrect_B.asm", FileContent.asmB),
           ("tested_incorrect.json", FileContent.modelNodesJson)],
          ExitKind.measureInvalid)) ∧
    (stringIncludes msg "tested_incorrect" = false →
      stringIncludes msg "could not be assembled" = false →
      handleMeasurementError msg =
        ([ ("generic_error_A.asm", FileContent.asmA),
           ("generic_error_B.asm", FileContent.asmB)],
          ExitKind.measureGeneric)) := by
  refine ⟨fun h1 => ?_, fun h1 h2 => ?_, fun h1 h2 => ?_⟩
  · simp [handleMeasurementError, h1]
  · simp [handleMeasurementError, h1, h2]
  · simp [handleMeasurementError, h1, h2]

/-- C9 witness: a message containing `tested_incorrect` persists the three
files and exits with `measureIncorrect`. -/
theorem handleMeasurementError_spec_witness :
    stringIncludes "results tested_incorrect on run" "tested_incorrect" = true ∧
      handleMeasurementError "results tested_incorrect on run" =
        ([ ("tested_incorrect_A.asm", FileContent.asmA),
           ("tested_incorrect_B.asm", FileContent.asmB),
           ("tested_incorrect.json", FileContent.modelNodesJson)],
          ExitKind.measureIncorrect) :=
  ⟨by decide, (handleMeasurementError_spec "results tested_incorrect on run").1 (by decide)⟩

/-- `Math.expm1(x) = e^x - 1`. -/
noncomputable def expm1 (x : ℝ) : ℝ :=
  Real.exp x - 1

/-- `makeExpCoolingSchedule(visitParam, initialTemp)`:

```ts
const a = visitParam - 1;
const t1 = Math.expm1(a * Math.log(2.0));
return (t) => {
  const s = t + 2.0;
  const t2 = Math.expm1(a * Math.log(s));
  return (initialTemp * t1) / t2;
};
``` -/
noncomputable def makeExpCoolingSchedule (visitParam initialTemp : ℝ) : ℝ → ℝ :=
  fun t =>
    initialTemp * expm1 ((visitParam - 1) * Real.log 2) /
      expm1 ((visitParam - 1) * Real.log (t + 2))

/-- `makeLinCoolingSchedule(nEval, visitParam, initialTemp)`:

```ts
return (t) => {
  const factor = clamp(t / nEval, 0, 1);
  return initialTemp * (1 - factor) * visitParam;
};
``` -/
noncomputable def makeLinCoolingSchedule (nEval visitParam initialTemp : ℝ) : ℝ → ℝ :=
  fun t => initialTemp * (1 - clamp (t / nEval) 0 1) * visitParam

/-- `makeLogCoolingSchedule(visitParam, initialTemp)` of the final SA variant:

```ts
const visit = 2.62;
const t1 = visit - visitParam;
return (t) => {
  const a = Math.log(t1 * (t + 1));
  const temp = initialTemp / a;
  return temp < 0 ? 0 : temp;
};
``` -/
noncomputable def makeLogCoolingSchedule (visitParam initialTemp : ℝ) : ℝ → ℝ :=
  fun t =>
    if initialTemp / Real.log ((2.62 - visitParam) * (t + 1)) < 0 then 0
    else initialTemp / Real.log ((2.62 - visitParam) * (t + 1))

/-- C6 counterexample.  The log schedule is not monotone non-increasing on the
documented parameter range: at `T0 = 1`, `q = 2` (so `2.62 - q = 0.62`), the
schedule at `t = 0` is `1 / ln 0.62 < 0`, clipped to `0`, while at `t = 1` it
is `1 / ln 1.24 > 0` — the schedule increases from `t = 0` to `t = 1`. -/
theorem makeLogCoolingSchedule_not_antitone :
    ¬ AntitoneOn (makeLogCoolingSchedule 2 1) (Set.Ici 0) := by
  intro h
  have hf0 : makeLogCoolingSchedule 2 1 0 = 0 := by
    unfold makeLogCoolingSchedule
    rw [if_pos]
    refine div_neg_of_pos_of_neg one_pos ?_
    rw [show ((2.62 : ℝ) - 2) * (0 + 1) = 0.62 by norm_num]
    exact Real.log_neg (by norm_num) (by norm_num)
  have hlog1 : 0 < Real.log ((2.62 - 2) * (1 + 1) : ℝ) := by
    rw [show ((2.62 : ℝ) - 2) * (1 + 1) = 1.24 by norm_num]
    exact Real.log_pos (by norm_num)
  have hf1 : 0 < makeLogCoolingSchedule 2 1 1 := by
    unfold makeLogCoolingSchedule
    rw [if_neg (not_lt.mpr (le_of_lt (div_pos one_pos hlog1)))]
    exact div_pos one_pos hlog1
  have hle : makeLogCoolingSchedule 2 1 1 ≤ makeLogCoolingSchedule 2 1 0 :=
    h (by norm_num) (by norm_num) (by norm_num)
  rw [hf0] at hle
  exact absurd hle (not_le.mpr hf1)

/-- C6, amended: on `t ≥ 0` with `T0 > 0`, `q > 1` and `nEvals > 0`, the `exp`
and `lin` cooling schedules are monotone non-increasing, and the `log`
schedule is monotone non-increasing provided additionally `2.62 - q > 1`
(i.e. `q < 1.62`); for `1.62 ≤ q` in the documented range `q > 1` the log
schedule can increase. -/
theorem coolingSchedules_antitone (T0 q nEval : ℝ)
    (hT0 : 0 < T0) (hq : 1 < q) (hn : 0 < nEval) :
    AntitoneOn (makeExpCoolingSchedule q T0) (Set.Ici 0) ∧
    AntitoneOn (makeLinCoolingSchedule nEval q T0) (Set.Ici 0) ∧
    (1 < 2.62 - q → AntitoneOn (makeLogCoolingSchedule q T0) (Set.Ici 0)) := by
  have ha : 0 < q - 1 := by linarith
  refine ⟨?_, ?_, ?_⟩
  · intro s hs t ht hst
    have hs0 : (0 : ℝ) ≤ s := hs
    have ht0 : (0 : ℝ) ≤ t := ht
    unfold makeExpCoolingSchedule expm1
    have hnum : 0 ≤ T0 * (Real.exp ((q - 1) * Real.log 2) - 1) := by
      have : (0 : ℝ) < (q - 1) * Real.log 2 :=
        mul_pos ha (Real.log_pos (by norm_num))
      have h1 : 1 < Real.exp ((q - 1) * Real.log 2) := Real.one_lt_exp_iff.mpr this
      nlinarith
    have hdenS : 0 < Real.exp ((q - 1) * Real.log (s + 2)) - 1 := by
      have hlog : 0 < Real.log (s + 2) := Real.log_pos (by linarith)
      have : (0 : ℝ) < (q - 1) * Real.log (s + 2) := mul_pos ha hlog
      have h1 : 1 < Real.exp ((q - 1) * Real.log (s + 2)) := Real.one_lt_exp_iff.mpr this
      linarith
    have hmono : Real.exp ((q - 1) * Real.log (s + 2)) - 1 ≤
        Real.exp ((q - 1) * Real.log (t + 2)) - 1 := by
      have hlog : Real.log (s + 2) ≤ Real.log (t + 2) :=
        Real.log_le_log (by linarith) (by linarith)
      have := mul_le_mul_of_nonneg_left hlog ha.le
      exact sub_le_sub_right (Real.exp_le_exp.mpr this) 1
    exact div_le_div_of_nonneg_left hnum hdenS hmono
  · intro s hs t ht hst
    have hs0 : (0 : ℝ) ≤ s := hs
    unfold makeLinCoolingSchedule clamp
    have hcl : min 1 (max 0 (s / nEval)) ≤ min 1 (max 0 (t / nEval)) := by
      have hdiv : s / nEval ≤ t / nEval := by gcongr
      exact min_le_min le_rfl (max_le_max le_rfl hdiv)
    have h1 : 1 - min 1 (max 0 (t / nEval)) ≤ 1 - min 1 (max 0 (s / nEval)) := by
      linarith
    have := mul_le_mul_of_nonneg_left h1 hT0.le
    exact mul_le_mul_of_nonneg_right this (by linarith)
  · intro hq162 s hs t ht hst
    have hs0 : (0 : ℝ) ≤ s := hs
    have ht0 : (0 : ℝ) ≤ t := ht
    have ht1 : (0 : ℝ) < 2.62 - q := by linarith
    have hargS : (1 : ℝ) < (2.62 - q) * (s + 1) := by nlinarith
    have hargT : (1 : ℝ) < (2.62 - q) * (t + 1) := by nlinarith
    have hlogS : 0 < Real.log ((2.62 - q) * (s + 1)) := Real.log_pos hargS
    have hlogT : 0 < Real.log ((2.62 - q) * (t + 1)) := Real.log_pos hargT
    unfold makeLogCoolingSchedule
    rw [if_neg (not_lt.mpr (div_pos hT0 hlogS).le),
      if_neg (not_lt.mpr (div_pos hT0 hlogT).le)]
    have hlog_mono : Real.log ((2.62 - q) * (s + 1)) ≤ Real.log ((2.62 - q) * (t + 1)) :=
      Real.log_le_log (by linarith) (by nlinarith)
    exact div_le_div_of_nonneg_left hT0.le hlogS hlog_mono

/-- C6 witness: `T0 = 1`, `q = 3/2`, `nEvals = 10` (and `2.62 - 3/2 > 1`):
all three schedules are monotone non-increasing on `t ≥ 0`. -/
theorem coolingSchedules_antitone_witness :
    (0 : ℝ) < 1 ∧ (1 : ℝ) < 3 / 2 ∧ (0 : ℝ) < 10 ∧
      AntitoneOn (makeExpCoolingSchedule (3 / 2) 1) (Set.Ici 0) ∧
      AntitoneOn (makeLinCoolingSchedule 10 (3 / 2) 1) (Set.Ici 0) ∧
      AntitoneOn (makeLogCoolingSchedule (3 / 2) 1) (Set.Ici 0) :=
  ⟨by norm_num, by norm_num, by norm_num,
    (coolingSchedules_antitone 1 (3 / 2) 10 (by norm_num) (by norm_num) (by norm_num)).1,
    (coolingSchedules_antitone 1 (3 / 2) 10 (by norm_num) (by norm_num) (by norm_num)).2.1,
    (coolingSchedules_antitone 1 (3 / 2) 10 (by norm_num) (by norm_num) (by norm_num)).2.2
      (by norm_num)⟩

/-- Result of the scalar path of `cauchyRvs`: either the process throws
`new Error("scale must be > 0")` (the spec's `BadConfig`), or a sample is
returned. -/
inductive CauchyResult : Type
  | badConfig : CauchyResult
  | sample : ℝ → CauchyResult

/-- The scalar path (`size = null`) of `cauchyRvs`:

```ts
if (scale <= 0) throw new Error("scale must be > 0");
const sampleScalar = () => {
  const u = Math.random(); // U ~ Uniform(0,1)
  return loc + scale * Math.tan(Math.PI * (u - 0.5));
};
return sampleScalar();
```

`u` is the `Math.random()` draw. -/
noncomputable def cauchyRvs (loc scale u : ℝ) : CauchyResult :=
  if scale ≤ 0 then CauchyResult.badConfig
  else CauchyResult.sample (loc + scale * Real.tan (Real.pi * (u - 0.5)))

/-- C8: for every `scale > 0` the Cauchy sampler returns
`loc + scale * tan(pi * (u - 0.5))` for the uniform draw `u ∈ [0, 1)` and
does not fail; for every `scale ≤ 0` it fails with `BadConfig`. -/
theorem cauchyRvs_spec (loc scale u : ℝ) (_hu0 : 0 ≤ u) (_hu1 : u < 1) :
    (0 < scale →
      cauchyRvs loc scale u =
          CauchyResult.sample (loc + scale * Real.tan (Real.pi * (u - 0.5))) ∧
        cauchyRvs loc scale u ≠ CauchyResult.badConfig) ∧
    (scale ≤ 0 → cauchyRvs loc scale u = CauchyResult.badConfig) := by
  constructor
  · intro hpos
    unfold cauchyRvs
    rw [if_neg (not_le.mpr hpos)]
    exact ⟨rfl, fun h => CauchyResult.noConfusion h⟩
  · intro hnp
    unfold cauchyRvs
    rw [if_pos hnp]

/-- C8 witness: `loc = 1`, `scale = 2`, `u = 1/2`. -/
theorem cauchyRvs_spec_witness :
    (0 : ℝ) ≤ 1 / 2 ∧ (1 / 2 : ℝ) < 1 ∧ (0 : ℝ) < 2 ∧
      cauchyRvs 1 2 (1 / 2) =
        CauchyResult.sample (1 + 2 * Real.tan (Real.pi * (1 / 2 - 0.5))) :=
  ⟨by norm_num, by norm_num, by norm_num,
    ((cauchyRvs_spec 1 2 (1 / 2) (by norm_num) (by norm_num)).1 (by norm_num)).1⟩

/-- `type State = { asm: string; ratio: number; cycleCount: number };` of the
final SA variant's `optimise`. -/
structure SAState : Type where
  asm : String
  ratio : ℚ
  cycleCount : ℚ
  deriving DecidableEq

/-- `const updateBest = (state: State) => { if (state.ratio < xBest.ratio) return; xBest.asm = state.asm; xBest.ratio = state.ratio; xBest.cycleCount = state.cycleCount; };` -/
def updateBest (xBest state : SAState) : SAState :=
  if state.ratio < xBest.ratio then xBest else state

/-- `let xBest: State = { asm: "", ratio: -1, cycleCount: -1 };` -/
def xBestInit : SAState :=
  { asm := "", ratio := -1, cycleCount := -1 }

/-- The per-epoch measurement data of the final SA variant's loop, taken as
input (it comes from the external Measurer): the candidate assembly strings
at measurement time, `analyseResult.rawMedian` (whose last entry is the check
column), `analyseResult.batchSizeScaledrawMedian`, the chosen `neighborIdx`,
and the outcome `kept` of `shouldAccept` for this epoch. -/
structure SAEpoch : Type where
  asms : List String
  rawMedian : List ℚ
  batchSizeScaledrawMedian : List ℚ
  neighborIdx : ℕ
  kept : Bool

/-- The states passed to `updateBest` during one epoch:

```ts
for (let i = 0; i < analyseResult.rawMedian.length - 1; ++i) {
  const res = analyseResult.rawMedian[i];
  const ratio = meanrawCheck / res;
  const cycleCount = analyseResult.batchSizeScaledrawMedian[i];
  updateBest({ asm: candidates[i].asm, ratio, cycleCount });
}
```

with `meanrawCheck = analyseResult.rawMedian[analyseResult.rawMedian.length - 1]`. -/
def epochObservations (e : SAEpoch) : List SAState :=
  (List.range (e.rawMedian.length - 1)).map fun i =>
    { asm := e.asms.getD i ""
      ratio := e.rawMedian.getD (e.rawMedian.length - 1) 0 / e.rawMedian.getD i 0
      cycleCount := e.batchSizeScaledrawMedian.getD i 0 }

/-- The running state of the SA loop that matters for the final emission: the
assembly held in slot 0 (`candidates[CURRENT_FUNCTION].asm`) and the
best-ever record `xBest`. -/
structure SARunState : Type where
  slot0Asm : String
  xBest : SAState

/-- One epoch of the final SA variant, restricted to slot 0 and `xBest`:
every measured slot feeds `updateBest`, and slot 0 is overwritten with the
chosen neighbour's assembly exactly when `shouldAccept` returned true
(`candidates[CURRENT_FUNCTION].asm = candidates[neighborIdx].asm`). -/
def processEpoch (st : SARunState) (e : SAEpoch) : SARunState :=
  { slot0Asm := if e.kept then e.asms.getD e.neighborIdx "" else st.slot0Asm
    xBest := (epochObservations e).foldl updateBest st.xBest }

/-- The SA loop over a whole run: slot 0 starts as the assembled baseline,
`xBest` as `{ asm: "", ratio: -1, cycleCount: -1 }`. -/
def saRun (baselineAsm : String) (epochs : List SAEpoch) : SARunState :=
  epochs.foldl processEpoch { slot0Asm := baselineAsm, xBest := xBestInit }

/-- At termination the final SA variant writes `xBest.asm` into the result
`.asm` file and resolves `{ ratio: xBest.ratio, cycleCount: xBest.cycleCount }`:

```ts
globals.currentRatio = xBest.ratio;
...
writeString(asmFile, [...].concat(xBest.asm).concat(statistics).join("\n"));
...
resolve({ ratio: xBest.ratio, cycleCount: xBest.cycleCount });
``` -/
def saFinalEmission (baselineAsm : String) (epochs : List SAEpoch) : SAState :=
  (saRun baselineAsm epochs).xBest

theorem foldl_updateBest_ratio_le (l : List SAState) (init : SAState) :
    init.ratio ≤ (l.foldl updateBest init).ratio := by
  induction l generalizing init with
  | nil => exact le_refl _
  | cons a l ih =>
    refine le_trans ?_ (ih (updateBest init a))
    unfold updateBest
    split_ifs with h
    · exact le_refl _
    · exact le_of_not_lt h

theorem foldl_updateBest_mem_le (l : List SAState) (init : SAState) :
    ∀ ob ∈ l, ob.ratio ≤ (l.foldl updateBest init).ratio := by
  induction l generalizing init with
  | nil => intro ob h; exact absurd h (List.not_mem_nil ob)
  | cons a l ih =>
    intro ob hob
    rcases List.mem_cons.mp hob with h | h
    · subst h
      refine le_trans ?_ (foldl_updateBest_ratio_le l (updateBest init ob))
      unfold updateBest
      split_ifs with h
      · exact le_of_lt h
      · exact le_refl _
    · exact ih (updateBest init a) ob h

theorem foldl_updateBest_mem (l : List SAState) (init : SAState) :
    l.foldl updateBest init = init ∨ l.foldl updateBest init ∈ l := by
  induction l generalizing init with
  | nil => exact Or.inl rfl
  | cons a l ih =>
    have hstep : updateBest init a = init ∨ updateBest init a = a := by
      unfold updateBest
      split_ifs
      · exact Or.inl rfl
      · exact Or.inr rfl
    rcases ih (updateBest init a) with h | h
    · rcases hstep with h2 | h2
      · exact Or.inl (by rw [List.foldl_cons, h, h2])
      · exact Or.inr (by rw [List.foldl_cons, h, h2]; exact List.mem_cons_self a l)
    · exact Or.inr (List.mem_cons_of_mem a h)

theorem saRun_xBest_ratio_le (epochs : List SAEpoch) (st : SARunState) :
    st.xBest.ratio ≤ ((epochs.foldl processEpoch st).xBest).ratio := by
  induction epochs generalizing st with
  | nil => exact le_refl _
  | cons e epochs ih =>
    refine le_trans ?_ (ih (processEpoch st e))
    exact foldl_updateBest_ratio_le (epochObservations e) st.xBest

theorem saRun_xBest_dominates (epochs : List SAEpoch) (st : SARunState) :
    ∀ e ∈ epochs, ∀ ob ∈ epochObservations e,
      ob.ratio ≤ ((epochs.foldl processEpoch st).xBest).ratio := by
  induction epochs generalizing st with
  | nil => intro e he; exact absurd he (List.not_mem_nil e)
  | cons e0 rest ih =>
    intro e he ob hob
    rcases List.mem_cons.mp he with h | h
    · subst h
      rw [List.foldl_cons]
      refine le_trans (foldl_updateBest_mem_le (epochObservations e) st.xBest ob hob) ?_
      exact saRun_xBest_ratio_le rest (processEpoch st e)
    · exact ih (processEpoch st e0) e h ob hob

theorem saRun_xBest_observed (epochs : List SAEpoch) (st : SARunState) :
    (epochs.foldl processEpoch st).xBest = st.xBest ∨
      ∃ e ∈ epochs, (epochs.foldl processEpoch st).xBest ∈ epochObservations e := by
  induction epochs generalizing st with
  | nil => exact Or.inl rfl
  | cons e0 rest ih =>
    rw [List.foldl_cons]
    rcases ih (processEpoch st e0) with h | h
    · rcases foldl_updateBest_mem (epochObservations e0) st.xBest with h2 | h2
      · exact Or.inl (h.trans h2)
      · exact Or.inr ⟨e0, List.mem_cons_self e0 rest, h ▸ h2⟩
    · rcases h with ⟨e, he, hm⟩
      exact Or.inr ⟨e, List.mem_cons_of_mem e0 he, hm⟩

/-- C10: at termination the final SA variant emits the best-ever-observed
assembly — every measured slot of every epoch is turned into a `ratio =
medianCheck / slot median` observation fed to `updateBest`, and the emitted
`.asm` and reported final ratio come from the resulting `xBest` record: its
ratio dominates every observation of the run, it is itself one of those
observations (or the initial record), and the emitted program can differ from
slot 0's state after the final epoch, as a concrete one-epoch run with a
rejected candidate shows. -/
theorem saFinalEmission_is_best (baselineAsm : String) (epochs : List SAEpoch) :
    (∀ e ∈ epochs, ∀ ob ∈ epochObservations e,
      ob.ratio ≤ (saFinalEmission baselineAsm epochs).ratio) ∧
    (saFinalEmission baselineAsm epochs = xBestInit ∨
      ∃ e ∈ epochs, saFinalEmission baselineAsm epochs ∈ epochObservations e) ∧
    ∃ base : String, ∃ run : List SAEpoch,
      (saFinalEmission base run).asm ≠ (saRun base run).slot0Asm := by
  refine ⟨?_, ?_, ?_⟩
  · exact saRun_xBest_dominates epochs { slot0Asm := baselineAsm, xBest := xBestInit }
  · exact saRun_xBest_observed epochs { slot0Asm := baselineAsm, xBest := xBestInit }
  · refine ⟨"base",
      [{ asms := ["A0", "A1"], rawMedian := [4, 2, 4],
         batchSizeScaledrawMedian := [100, 50], neighborIdx := 1, kept := false }], ?_⟩
    norm_num [saFinalEmission, saRun, processEpoch, epochObservations, updateBest, xBestInit,
      List.range_succ]
    decide

end CryptOpt
